import Mathlib

/-!
# Britium Express delivery front end — verification of the pricing engine
  and the auth-profile synchronization core

Shallow embedding of the two specified components of the repository:

* the pricing engine (`volumetricWeightKg`, `chargeableKg`,
  `estimatePriceMMK` from the public Send/Quote/Track page), and
* the profile-sync adapter (`useAuthProfile` in
  `src/shared/useAuthProfile.ts`), modelled as an event-driven state
  machine over auth-stream and document-store events, and
* the REST auth client's `logout` (`src/web/src/api/auth.ts`).

JavaScript `number` arithmetic is modelled over `ℚ` (exact rationals);
`Math.round` is modelled by its ECMAScript definition
`⌊x + 1/2⌋` (ties round toward +∞), and `Math.max` by `max`.
-/

namespace Britium

/-! ## Pricing engine (`src/unnamed/part_002`) -/

/-- The closed service-type set `SERVICES = ["Standard", "Express", "Same-day"]`
(the `z.enum` in the quote form restricts `serviceType` to these three). -/
inductive ServiceType where
  | Standard
  | Express
  | SameDay
deriving DecidableEq, Repr

/-- The service-multiplier ternary chain of `estimatePriceMMK`:
`serviceType === "Same-day" ? 1.8 : serviceType === "Express" ? 1.35 : 1.0`. -/
def serviceMultiplier : ServiceType → ℚ
  | .SameDay => 1.8
  | .Express => 1.35
  | .Standard => 1.0

/-- The region-multiplier ternary chain of `estimatePriceMMK`:
`destinationRegion === "Yangon" ? 1.0 : destinationRegion === "Other" ? 1.25 : 1.15`.
Regions are strings drawn from the closed set
`REGIONS = ["Yangon", "Mandalay", "Naypyidaw", "Bago", "Other"]`; the code
compares the string itself, so the model keeps the string. -/
def regionMultiplier (destinationRegion : String) : ℚ :=
  if destinationRegion = "Yangon" then 1.0
  else if destinationRegion = "Other" then 1.25
  else 1.15

/-- ECMAScript `Math.round x = ⌊x + 1/2⌋`: nearest integer, ties toward +∞. -/
def jsMathRound (x : ℚ) : ℤ := ⌊x + 1 / 2⌋

/-- The raw price of `estimatePriceMMK` before rounding:
`const raw = (base + perKg * chargeableWeightKg) * serviceMultiplier * regionMultiplier`
with `base = 2500`, `perKg = 1200`. -/
def rawPriceMMK (serviceType : ServiceType) (destinationRegion : String)
    (chargeableWeightKg : ℚ) : ℚ :=
  (2500 + 1200 * chargeableWeightKg) * serviceMultiplier serviceType *
    regionMultiplier destinationRegion

/-- `estimatePriceMMK`: `return Math.round(raw / 100) * 100` ("round to
nearest 100"). -/
def estimatePriceMMK (serviceType : ServiceType) (destinationRegion : String)
    (chargeableWeightKg : ℚ) : ℤ :=
  jsMathRound (rawPriceMMK serviceType destinationRegion chargeableWeightKg / 100) * 100

/-- `volumetricWeightKg(lengthCm, widthCm, heightCm)`:
`const v = (lengthCm * widthCm * heightCm) / 5000; return Math.max(0, v)`. -/
def volumetricWeightKg (lengthCm widthCm heightCm : ℚ) : ℚ :=
  max 0 (lengthCm * widthCm * heightCm / 5000)

/-- The chargeable weight computed on the quote page:
`Math.max(actual, volKg)` (`chargeableKg` memo in `SendParcel`). -/
def chargeableKg (actualWeightKg volumetricKg : ℚ) : ℚ :=
  max actualWeightKg volumetricKg

/-! ### Spec-side definitions for the refinement claim about the price formula.
These follow the specification's words (round to the nearest multiple of 100,
half-up; the multiplier tables as the spec lists them), to be compared with
the code-side `estimatePriceMMK`. -/

/-- Spec-side rounding: the nearest multiple of 100, and when the value is
exactly halfway between two multiples the larger one (half-up). -/
def roundToNearest100HalfUp (x : ℚ) : ℤ :=
  if x - 100 * ⌊x / 100⌋ < 50 then 100 * ⌊x / 100⌋ else 100 * (⌊x / 100⌋ + 1)

/-- Spec-side service-multiplier table: Standard = 1.0, Express = 1.35,
SameDay = 1.8. -/
def specServiceMultiplier : ServiceType → ℚ
  | .Standard => 1.0
  | .Express => 1.35
  | .SameDay => 1.8

/-- Spec-side region-multiplier table: "Yangon" = 1.0, catch-all "Other" =
1.25, any other named region = 1.15. -/
def specRegionMultiplier (region : String) : ℚ :=
  if region = "Yangon" then 1.0
  else if region = "Other" then 1.25
  else 1.15

/-! ## Profile sync (`src/shared/useAuthProfile.ts`, `src/unnamed/part_000`)

The hook is modelled as an event-driven state machine.  External inputs are
auth-stream callbacks (`onAuthStateChanged`), document-snapshot callbacks and
snapshot-error callbacks (`onSnapshot`), and the React effect cleanup
(unmount).  Each event is processed by the handler exactly as the source
writes it; the `setUser` / `setProfile` / `setLoading` calls the handler makes
are recorded as the published updates.

Two facts of the external APIs are part of the model:

* `onAuthStateChanged(auth, cb)` delivers auth events only while the outer
  subscription returned by it is open, and it IGNORES the value returned by
  `cb` (its `NextFn` callback type returns `void`).  Hence the
  `return () => unsubProfile()` at the end of the auth callback in the source
  is discarded: the inner `onSnapshot` unsubscribe function is never invoked,
  and document subscriptions, once opened, stay open.
* the React effect cleanup runs `() => unsubAuth()`, which closes only the
  outer auth subscription.
-/

/-- A Firebase auth identity as the hook reads it: `u.uid`, `u.displayName`
(nullable), `u.email` (nullable). -/
structure Identity where
  uid : String
  displayName : Option String
  email : Option String
deriving DecidableEq, Repr

/-- The `UserProfile` record of `useAuthProfile.ts`; every field is optional. -/
structure UserProfile where
  role : Option String
  stationId : Option String
  stationName : Option String
  displayName : Option String
  email : Option String
deriving DecidableEq, Repr

/-- The synthesized default profile the hook substitutes when the document is
missing or the read fails:
`{role: "customer", displayName: u.displayName ?? undefined, email: u.email ?? undefined}`. -/
def defaultProfile (u : Identity) : UserProfile :=
  { role := some "customer"
    stationId := none
    stationName := none
    displayName := u.displayName
    email := u.email }

/-- The externally observable tuple returned by the hook:
`{user, profile, loading}`. -/
structure SyncState where
  user : Option Identity
  profile : Option UserProfile
  loading : Bool
deriving DecidableEq, Repr

/-- One React state-setter call made by the hook's callbacks (a published
sync-state update). -/
inductive SetterCall where
  | setUser (u : Option Identity)
  | setProfile (p : Option UserProfile)
  | setLoading (b : Bool)
deriving DecidableEq, Repr

/-- Internal component state: the sync state plus the subscription
bookkeeping.  `docSubs` is the set of open inner document subscriptions,
each remembering the identity its callbacks close over; `nextSubId`
numbers subscriptions in the order they are opened. -/
structure Component where
  authSubOpen : Bool
  sync : SyncState
  nextSubId : Nat
  docSubs : List (Nat × Identity)
deriving DecidableEq, Repr

/-- At mount: `useState(null)`, `useState(null)`, `useState(true)`, and the
effect opens the auth subscription.  No document subscription is open. -/
def initComponent : Component :=
  { authSubOpen := true
    sync := { user := none, profile := none, loading := true }
    nextSubId := 0
    docSubs := [] }

/-- An external event delivered to the hook's callbacks. -/
inductive Event where
  | authChange (u : Option Identity)
  | snapshot (subId : Nat) (docExists : Bool) (data : UserProfile)
  | snapshotError (subId : Nat)
  | unmount
deriving DecidableEq, Repr

/-- Apply one state-setter call. -/
def applyCall (s : SyncState) : SetterCall → SyncState
  | .setUser u => { s with user := u }
  | .setProfile p => { s with profile := p }
  | .setLoading b => { s with loading := b }

/-- Apply the setter calls of one callback in order. -/
def applyCalls (s : SyncState) (cs : List SetterCall) : SyncState :=
  cs.foldl applyCall s

/-- The event handler, embedding the hook's callbacks line by line.

* `authChange u` (the `onAuthStateChanged` callback, delivered only while the
  auth subscription is open): `setUser(u); setLoading(true);` then, when `u`
  is null, `setProfile(null); setLoading(false); return;` and when `u` is
  non-null, open `onSnapshot(doc(db, "users", u.uid), ...)` — a fresh inner
  subscription.  The cleanup closure the source returns here is discarded by
  `onAuthStateChanged`, so no previously opened subscription is closed.
* `snapshot subId docExists data` (the `onSnapshot` success callback of the
  inner subscription `subId`, delivered only while that subscription is
  open): when the document exists, `setProfile(snap.data())`; otherwise
  `setProfile(defaultProfile u)`; then `setLoading(false)`.
* `snapshotError subId` (the `onSnapshot` error callback):
  `setProfile(defaultProfile u); setLoading(false)`.
* `unmount` (the effect cleanup): `unsubAuth()` — the auth subscription
  closes; the inner document subscriptions stay open. -/
def handleEvent (c : Component) : Event → Component × List SetterCall
  | .authChange u =>
    if c.authSubOpen then
      match u with
      | none =>
        let calls := [SetterCall.setUser none, SetterCall.setLoading true,
                      SetterCall.setProfile none, SetterCall.setLoading false]
        ({ c with sync := applyCalls c.sync calls }, calls)
      | some ident =>
        let calls := [SetterCall.setUser (some ident), SetterCall.setLoading true]
        ({ c with sync := applyCalls c.sync calls
                  nextSubId := c.nextSubId + 1
                  docSubs := c.docSubs ++ [(c.nextSubId, ident)] }, calls)
    else (c, [])
  | .snapshot subId docExists data =>
    match c.docSubs.find? (fun p => p.1 == subId) with
    | some (_, ident) =>
      let p := if docExists then data else defaultProfile ident
      let calls := [SetterCall.setProfile (some p), SetterCall.setLoading false]
      ({ c with sync := applyCalls c.sync calls }, calls)
    | none => (c, [])
  | .snapshotError subId =>
    match c.docSubs.find? (fun p => p.1 == subId) with
    | some (_, ident) =>
      let calls := [SetterCall.setProfile (some (defaultProfile ident)),
                    SetterCall.setLoading false]
      ({ c with sync := applyCalls c.sync calls }, calls)
    | none => (c, [])
  | .unmount => ({ c with authSubOpen := false }, [])

/-- Run a sequence of external events from a component state. -/
def runEvents (c : Component) : List Event → Component
  | [] => c
  | e :: es => runEvents (handleEvent c e).1 es

/-- A concrete identity "U" used for the trace counterexamples. -/
def identU : Identity :=
  { uid := "uid-U", displayName := some "Alice", email := some "alice@example.com" }

/-- A concrete identity "V" used for the trace counterexamples. -/
def identV : Identity :=
  { uid := "uid-V", displayName := some "Bob", email := some "bob@example.com" }

/-- A concrete profile document belonging to identity U. -/
def profU : UserProfile :=
  { role := some "manager"
    stationId := some "ST-1"
    stationName := some "Yangon Hub"
    displayName := some "Alice"
    email := some "alice@example.com" }

/-! ## REST auth client `logout` (`src/web/src/api/auth.ts`) -/

/-- The module-local auth-token cell manipulated by `setAuthToken`. -/
structure AuthLocal where
  token : Option String
deriving DecidableEq, Repr

/-- `setAuthToken(t)`: store the token (or clear it with `null`). -/
def setAuthToken (st : AuthLocal) (t : Option String) : AuthLocal :=
  { st with token := t }

/-- `logout()`: `try { await api.post("/auth/logout") } catch { /* swallow */ }
finally { setAuthToken(null) }`.  The server response is an input (success or
an error message); the result is the local state after the `finally` block
together with what the returned promise does: the `catch` block swallows any
server error, so the promise always resolves. -/
def logout (st : AuthLocal) (serverResponse : Except String Unit) :
    AuthLocal × Except String Unit :=
  let outcome : Except String Unit :=
    match serverResponse with
    | Except.ok u => Except.ok u
    | Except.error _ => Except.ok ()
  (setAuthToken st none, outcome)

/-! ## Theorems -/

/-- `Math.round(x / 100) * 100` is exactly rounding `x` to the nearest
multiple of 100, half-up. -/
lemma jsMathRound_div_100 (x : ℚ) :
    jsMathRound (x / 100) * 100 = roundToNearest100HalfUp x := by
  have h1 : (⌊x / 100⌋ : ℚ) ≤ x / 100 := Int.floor_le _
  have h2 : x / 100 < ⌊x / 100⌋ + 1 := Int.lt_floor_add_one _
  have hx : x / 100 * 100 = x := by ring
  rw [jsMathRound, roundToNearest100HalfUp]
  by_cases h : x - 100 * ⌊x / 100⌋ < 50
  · rw [if_pos h]
    have hf : ⌊x / 100 + 1 / 2⌋ = ⌊x / 100⌋ := by
      rw [Int.floor_eq_iff]
      constructor
      · linarith
      · linarith
    rw [hf]
    ring
  · rw [if_neg h]
    push_neg at h
    have hf : ⌊x / 100 + 1 / 2⌋ = ⌊x / 100⌋ + 1 := by
      rw [Int.floor_eq_iff]
      constructor
      · push_cast
        linarith
      · push_cast
        linarith
    rw [hf]
    ring

/-- C1: for every service tier, destination region and chargeable weight `w`,
`estimatePriceMMK` returns `(2500 + 1200 * w) * serviceMultiplier *
regionMultiplier` rounded to the nearest 100 half-up, where the service
multiplier is 1.0 / 1.35 / 1.8 for Standard / Express / SameDay and the
region multiplier is 1.0 for "Yangon", 1.25 for "Other" and 1.15 for any
other named region (the spec-side tables `specServiceMultiplier` and
`specRegionMultiplier`). -/
theorem estimatePrice_matches_spec (s : ServiceType) (r : String) (w : ℚ) :
    estimatePriceMMK s r w =
      roundToNearest100HalfUp
        ((2500 + 1200 * w) * specServiceMultiplier s * specRegionMultiplier r) := by
  have hs : serviceMultiplier s = specServiceMultiplier s := by
    cases s <;> rfl
  have hr : regionMultiplier r = specRegionMultiplier r := rfl
  rw [estimatePriceMMK, rawPriceMMK, hs, hr, jsMathRound_div_100]

/-- C4: for all non-negative dimensions, the volumetric weight is exactly
`l * w * h / 5000`, is never below 0, and is 0 whenever a dimension is 0. -/
theorem volumetricWeight_formula (l w h : ℚ)
    (hl : 0 ≤ l) (hw : 0 ≤ w) (hh : 0 ≤ h) :
    volumetricWeightKg l w h = l * w * h / 5000 ∧
    0 ≤ volumetricWeightKg l w h ∧
    (l = 0 ∨ w = 0 ∨ h = 0 → volumetricWeightKg l w h = 0) := by
  have hp : 0 ≤ l * w * h / 5000 :=
    div_nonneg (mul_nonneg (mul_nonneg hl hw) hh) (by norm_num)
  unfold volumetricWeightKg
  refine ⟨max_eq_right hp, le_max_left 0 _, ?_⟩
  rintro (rfl | rfl | rfl) <;> simp

/-- Witness for C4 at the concrete input (10, 20, 0). -/
theorem volumetricWeight_formula_witness :
    (0 : ℚ) ≤ 10 ∧ (0 : ℚ) ≤ 20 ∧ (0 : ℚ) ≤ 0 ∧
    volumetricWeightKg 10 20 0 = 0 :=
  ⟨by norm_num, by norm_num, le_refl 0,
    (volumetricWeight_formula 10 20 0 (by norm_num) (by norm_num)
      (le_refl 0)).2.2 (Or.inr (Or.inr rfl))⟩

/-- C7: for non-negative actual and volumetric weights the chargeable weight
is the larger of the two (it dominates both and equals one of them), and on
equal inputs it is that common value from either operand order. -/
theorem chargeableWeight_is_max (a v : ℚ) (ha : 0 ≤ a) (hv : 0 ≤ v) :
    a ≤ chargeableKg a v ∧ v ≤ chargeableKg a v ∧
    (chargeableKg a v = a ∨ chargeableKg a v = v) ∧
    (a = v → chargeableKg a v = a ∧ chargeableKg v a = a) := by
  unfold chargeableKg
  refine ⟨le_max_left a v, le_max_right a v, max_choice a v, ?_⟩
  rintro rfl
  exact ⟨max_self a, max_self a⟩

/-- Witness for C7 at the concrete input (3, 5). -/
theorem chargeableWeight_is_max_witness :
    (0 : ℚ) ≤ 3 ∧ (0 : ℚ) ≤ 5 ∧
    (3 : ℚ) ≤ chargeableKg 3 5 ∧ (5 : ℚ) ≤ chargeableKg 3 5 :=
  ⟨by norm_num, by norm_num,
    (chargeableWeight_is_max 3 5 (by norm_num) (by norm_num)).1,
    (chargeableWeight_is_max 3 5 (by norm_num) (by norm_num)).2.1⟩

/-- C5: the estimated price is always a multiple of 100, and when the raw
price is exactly halfway between two multiples of 100 (`100 * k + 50`) the
result is the larger multiple `100 * (k + 1)`. -/
theorem estimatePrice_multiple_of_100_half_up (s : ServiceType) (r : String)
    (w : ℚ) :
    (100 : ℤ) ∣ estimatePriceMMK s r w ∧
    ∀ k : ℤ, rawPriceMMK s r w = 100 * (k : ℚ) + 50 →
      estimatePriceMMK s r w = 100 * (k + 1) := by
  constructor
  · rw [estimatePriceMMK]
    exact dvd_mul_left 100 _
  · intro k hk
    rw [estimatePriceMMK, hk, jsMathRound]
    have hcast : ((100 : ℚ) * k + 50) / 100 + 1 / 2 = ((k + 1 : ℤ) : ℚ) := by
      push_cast
      ring
    rw [hcast, Int.floor_intCast]
    ring

/-- Witness for C5: `rawPriceMMK Standard "Yangon" (1/8) = 2650`, exactly
halfway between 2600 and 2700, and the price is 2700. -/
theorem estimatePrice_multiple_of_100_half_up_witness :
    ((100 : ℤ) ∣ estimatePriceMMK ServiceType.Standard "Yangon" (1 / 8)) ∧
    rawPriceMMK ServiceType.Standard "Yangon" (1 / 8) = 100 * ((26 : ℤ) : ℚ) + 50 ∧
    estimatePriceMMK ServiceType.Standard "Yangon" (1 / 8) = 100 * (26 + 1) := by
  have hraw : rawPriceMMK ServiceType.Standard "Yangon" (1 / 8) =
      100 * ((26 : ℤ) : ℚ) + 50 := by
    norm_num [rawPriceMMK, serviceMultiplier, regionMultiplier]
  exact ⟨(estimatePrice_multiple_of_100_half_up ServiceType.Standard "Yangon" (1 / 8)).1,
    hraw,
    (estimatePrice_multiple_of_100_half_up ServiceType.Standard "Yangon" (1 / 8)).2 26 hraw⟩

/-- The service multiplier is positive for every tier. -/
lemma serviceMultiplier_pos (s : ServiceType) : 0 < serviceMultiplier s := by
  cases s <;> norm_num [serviceMultiplier]

/-- The region multiplier is positive for every region string. -/
lemma regionMultiplier_pos (r : String) : 0 < regionMultiplier r := by
  rw [regionMultiplier]
  split_ifs <;> norm_num

/-- C10: for a fixed tier and region the estimated price is monotone
non-decreasing in the chargeable weight. -/
theorem estimatePrice_monotone_in_weight (s : ServiceType) (r : String)
    (w1 w2 : ℚ) (hw : w1 ≤ w2) :
    estimatePriceMMK s r w1 ≤ estimatePriceMMK s r w2 := by
  have hraw : rawPriceMMK s r w1 ≤ rawPriceMMK s r w2 := by
    rw [rawPriceMMK, rawPriceMMK]
    have h1 := serviceMultiplier_pos s
    have h2 := regionMultiplier_pos r
    have hb : (2500 : ℚ) + 1200 * w1 ≤ 2500 + 1200 * w2 := by linarith
    exact mul_le_mul_of_nonneg_right
      (mul_le_mul_of_nonneg_right hb h1.le) h2.le
  have hfloor : jsMathRound (rawPriceMMK s r w1 / 100) ≤
      jsMathRound (rawPriceMMK s r w2 / 100) := by
    rw [jsMathRound, jsMathRound]
    exact Int.floor_le_floor (by linarith)
  rw [estimatePriceMMK, estimatePriceMMK]
  exact mul_le_mul_of_nonneg_right hfloor (by norm_num)

/-- Witness for C10 at Standard / "Yangon" with weights 0 ≤ 1. -/
theorem estimatePrice_monotone_in_weight_witness :
    (0 : ℚ) ≤ 1 ∧
    estimatePriceMMK ServiceType.Standard "Yangon" 0 ≤
      estimatePriceMMK ServiceType.Standard "Yangon" 1 :=
  ⟨by norm_num,
    estimatePrice_monotone_in_weight ServiceType.Standard "Yangon" 0 1 (by norm_num)⟩

/-- C9: `logout` always clears the stored auth token, and a server-side
failure is swallowed — the returned promise always resolves. -/
theorem logout_clears_token_and_swallows_errors (st : AuthLocal)
    (serverResponse : Except String Unit) :
    (logout st serverResponse).1.token = none ∧
    (logout st serverResponse).2 = Except.ok () := by
  cases serverResponse <;> exact ⟨rfl, rfl⟩

/-- C3: for every identity whose profile document does not exist, and for
every identity whose document subscription errors, the sync ends in
`{user = some u, profile = defaultProfile u (role "customer", name and email
from the identity), loading = false}`; the handler produces a state in both
cases rather than surfacing the error. -/
theorem profileSync_defaults_on_missing_or_error (u : Identity) (d : UserProfile) :
    (runEvents initComponent
        [Event.authChange (some u), Event.snapshot 0 false d]).sync =
      { user := some u, profile := some (defaultProfile u), loading := false } ∧
    (runEvents initComponent
        [Event.authChange (some u), Event.snapshotError 0]).sync =
      { user := some u, profile := some (defaultProfile u), loading := false } :=
  ⟨rfl, rfl⟩

/-- C2 refuted on the code: after identity U is replaced by identity V, U's
document subscription is still open (the unsubscribe returned inside the
auth callback is discarded by `onAuthStateChanged`), a late snapshot on U's
subscription still publishes `setProfile`/`setLoading` updates, and the
final published state carries U's document under V's identity. -/
theorem profileSync_stale_update_after_identity_switch :
    (0, identU) ∈ (runEvents initComponent
        [Event.authChange (some identU), Event.authChange (some identV)]).docSubs ∧
    (handleEvent (runEvents initComponent
        [Event.authChange (some identU), Event.authChange (some identV)])
        (Event.snapshot 0 true profU)).2 =
      [SetterCall.setProfile (some profU), SetterCall.setLoading false] ∧
    (runEvents initComponent
        [Event.authChange (some identU), Event.authChange (some identV),
         Event.snapshot 0 true profU]).sync =
      { user := some identV, profile := some profU, loading := false } := by
  refine ⟨?_, rfl, rfl⟩
  decide

/-- C6 refuted on the code in its persistence part: on a null identity the
state does become `{user = none, profile = none, loading = false}` and no
new subscription is opened, but a stale snapshot from the prior identity's
never-closed subscription then overwrites the profile while the identity is
still null. -/
theorem profileSync_logout_state_not_persistent :
    ((runEvents initComponent
        [Event.authChange (some identU), Event.authChange none]).sync =
      { user := none, profile := none, loading := false }) ∧
    ((runEvents initComponent
        [Event.authChange (some identU), Event.authChange none]).docSubs =
      [(0, identU)]) ∧
    ((runEvents initComponent
        [Event.authChange (some identU), Event.authChange none,
         Event.snapshot 0 true profU]).sync =
      { user := none, profile := some profU, loading := false }) :=
  ⟨rfl, rfl, rfl⟩

/-- C8 refuted on the code: the effect cleanup closes only the auth
subscription, so after teardown a late document snapshot on the leaked
inner subscription still publishes `setProfile`/`setLoading` updates. -/
theorem profileSync_update_after_teardown :
    ((handleEvent (runEvents initComponent
        [Event.authChange (some identU), Event.unmount])
        (Event.snapshot 0 true profU)).2 =
      [SetterCall.setProfile (some profU), SetterCall.setLoading false]) ∧
    ((runEvents initComponent
        [Event.authChange (some identU), Event.unmount,
         Event.snapshot 0 true profU]).sync.profile = some profU) :=
  ⟨rfl, rfl⟩

end Britium
